import Mathlib

/-!
Shallow embedding of `src/spot_advisor.py` (spot-Instance-info).

The script filters AWS spot-instance availability data against user
constraints and enriches the surviving candidates with a live price.
Python dictionaries are modelled as association lists (`List (key × value)`)
so that the source's iteration and `in`/`.get` lookups are preserved;
Python ints/floats that are only compared are modelled as `ℚ`; a value that
may be absent (`dict.get`) is an `Option`.  I/O is modelled by passing the
HTTP response (status code plus parsed body) and the per-candidate price
lookup outcome as explicit arguments.
-/

/-- One entry of the module-level `ranges` table (spot_advisor.py lines 11-17). -/
structure RangeEntry where
  index : Nat
  label : String
  dots : Nat
  max : Int
deriving Repr, DecidableEq

/-- The static interruption-range table, verbatim from the source. -/
def ranges : List RangeEntry :=
  [ { index := 0, label := "<5%", dots := 0, max := 5 },
    { index := 1, label := "5-10%", dots := 1, max := 11 },
    { index := 2, label := "10-15%", dots := 2, max := 16 },
    { index := 3, label := "15-20%", dots := 3, max := 22 },
    { index := 4, label := ">20%", dots := 4, max := 100 } ]

/-- One value of the dataset's `instance_types` map: `details.get("cores")`,
`details.get("ram_gb")` (lines 56-57; assumed present, as in the live feed). -/
structure InstanceDetails where
  cores : ℚ
  ram_gb : ℚ
deriving Repr, DecidableEq

/-- One value of a region's per-OS instance map: `.get("s")` (savings) and
`.get("r")` (interruption range index), both via `dict.get`, hence `Option`. -/
structure AvailEntry where
  s : Option Int
  r : Option Int
deriving Repr, DecidableEq

/-- `spot_advisor[region]` : OS family → instance type → entry. -/
abbrev OsMap := List (String × List (String × AvailEntry))

/-- region → OsMap. -/
abbrev SpotAdvisor := List (String × OsMap)

/-- The parsed Spot Advisor JSON document (lines 47-49). -/
structure SpotData where
  instance_types : List (String × InstanceDetails)
  spot_advisor : SpotAdvisor
deriving Repr, DecidableEq

/-- The arguments of `get_filtered_instances` (line 43); `max_usd` is accepted
but unused by the filter, exactly as in the source. -/
structure FilterParams where
  min_cores : ℚ
  max_cores : ℚ
  min_ram : ℚ
  max_ram : ℚ
  max_interruption : Option Int
  region : String
  max_usd : Option ℚ
  instance_types : Option (List String)
deriving Repr, DecidableEq

/-- One row appended to `filtered_instances` (lines 76-82). -/
structure Candidate where
  instance_type : String
  cores : ℚ
  ram : ℚ
  discount : Option Int
  frequency_of_interruption : String
deriving Repr, DecidableEq

/-- `needleWithin n h` checks whether `n` occurs as a prefix of `h`
(character-wise `==`), the base case of Python's `in` on strings. -/
def needleWithin : List Char → List Char → Bool
  | [], _ => true
  | _ :: _, [] => false
  | a :: as, b :: bs => a == b && needleWithin as bs

/-- `occursIn n h` : `n` occurs contiguously somewhere in `h`. -/
def occursIn (needle : List Char) : List Char → Bool
  | [] => needleWithin needle []
  | c :: rest => needleWithin needle (c :: rest) || occursIn needle rest

/-- Python's substring test `needle in hay`. -/
def strContains (hay needle : String) : Bool :=
  occursIn needle.data hay.data

/-- Line 53: `if instance_types and not any(it in it_type for it in instance_types)`.
Returns `true` when the entry survives the substring filter: a `None` or empty
list is falsy in Python, so no filtering is applied then. -/
def instancePassesSub (its : Option (List String)) (it_type : String) : Bool :=
  match its with
  | none => true
  | some [] => true
  | some l => l.any (fun it => strContains it_type it)

/-- Line 69: `next((r['label'] for r in ranges if r['index'] == r_value), "Unknown")`. -/
def resolveLabel (rv : Option Int) : String :=
  ((ranges.find? (fun re => rv == some ((re.index : Int)))).map RangeEntry.label).getD "Unknown"

/-- Line 72: `next((r['max'] for r in ranges if r['index'] == r_value), 100)`. -/
def resolveMax (rv : Option Int) : Int :=
  ((ranges.find? (fun re => rv == some ((re.index : Int)))).map RangeEntry.max).getD 100

/-- The entry the filter reads for an instance type: `spot_advisor[region]`,
then `region_data.get("Linux", {})`, then `linux_data[it_type]` (lines 62-66). -/
def entryFor (sa : SpotAdvisor) (region it_type : String) : Option AvailEntry :=
  match List.lookup region sa with
  | none => none
  | some region_data => List.lookup it_type ((List.lookup "Linux" region_data).getD [])

/-- The body of the per-entry loop of `get_filtered_instances` (lines 52-82):
`some c` when the entry survives every filter and `c` is appended, `none` when
any `continue`/membership test drops it. -/
def filterOne (p : FilterParams) (sa : SpotAdvisor) (it_type : String)
    (d : InstanceDetails) : Option Candidate :=
  if instancePassesSub p.instance_types it_type = false then none
  else if ¬ (p.min_cores ≤ d.cores ∧ d.cores ≤ p.max_cores ∧
             p.min_ram ≤ d.ram_gb ∧ d.ram_gb ≤ p.max_ram) then none
  else
    match List.lookup p.region sa with
    | none => none
    | some region_data =>
      match List.lookup it_type ((List.lookup "Linux" region_data).getD []) with
      | none => none
      | some e =>
        let cand : Candidate :=
          { instance_type := it_type, cores := d.cores, ram := d.ram_gb,
            discount := e.s, frequency_of_interruption := resolveLabel e.r }
        match p.max_interruption with
        | none => some cand
        | some mi => if resolveMax e.r > mi then none else some cand

/-- The pure part of `get_filtered_instances` once the dataset has been
fetched and parsed: the loop over `instance_types_data.items()` in insertion
order, appending each surviving candidate. -/
def filterData (p : FilterParams) (data : SpotData) : List Candidate :=
  data.instance_types.filterMap (fun x => filterOne p data.spot_advisor x.1 x.2)

/-- The HTTP response of the Spot Advisor fetch (line 44): status code and,
when the status is 200, the parsed JSON body. -/
structure HttpResponse where
  status : Nat
  body : SpotData
deriving Repr, DecidableEq

/-- The outcome of `future.result()` for one candidate inside
`display_instance_info` (lines 96-106), after the `float(price)` conversion:
`price q` — a numeric price was fetched and parsed; `na` — the lookup hit the
`"N/A"` sentinel of `fetch_spot_price`; `notFound` — `fetch_spot_price`
returned `None`; `error` — the fetch (or the float conversion) raised and the
`except` branch set `price = "N/A"`. -/
inductive LookupResult where
  | price (q : ℚ)
  | na
  | notFound
  | error
deriving Repr, DecidableEq

/-- What the USD/h table cell shows after `price or "N/A"` (line 110):
a numeric price, or the `"N/A"` string (also reached when the float price is
`0.0`, which is falsy in Python). -/
inductive PriceCell where
  | num (q : ℚ)
  | unavailable
deriving Repr, DecidableEq

/-- Lines 98-111 for one candidate: `none` when the row is skipped by the
`continue` of the price ceiling, otherwise the cell added to the table. -/
def renderCell (max_usd : Option ℚ) (r : LookupResult) : Option PriceCell :=
  match r with
  | LookupResult.price q =>
    match max_usd with
    | some ceil =>
      if q > ceil then none
      else some (if q = 0 then PriceCell.unavailable else PriceCell.num q)
    | none => some (if q = 0 then PriceCell.unavailable else PriceCell.num q)
  | _ => some PriceCell.unavailable

/-- `display_instance_info` (lines 89-114) as the table rows it builds: each
candidate is paired with the outcome of its own `fetch_spot_price` task and
processed independently; a row survives iff `renderCell` keeps it.  (The
thread pool's `as_completed` order is nondeterministic; the model processes
the pairs in list order, which claims about membership do not depend on.) -/
def display_instance_info (max_usd : Option ℚ)
    (pairs : List (Candidate × LookupResult)) : List (Candidate × PriceCell) :=
  pairs.filterMap (fun x => (renderCell max_usd x.2).map (fun cell => (x.1, cell)))

/-- A line printed to stdout by the script. -/
inductive OutLine where
  | fetchFail (status : Nat)
  | table (rows : List (Candidate × PriceCell))
  | noMatch
deriving Repr, DecidableEq

/-- `get_filtered_instances` including its fetch handling (lines 43-87): on a
200 status it filters the parsed body, otherwise it prints
`Failed to retrieve Spot Advisor data: <status>` and returns `[]`. -/
def get_filtered_instances (p : FilterParams) (resp : HttpResponse) :
    List OutLine × List Candidate :=
  if resp.status = 200 then ([], filterData p resp.body)
  else ([OutLine.fetchFail resp.status], [])

/-- stdout lines and the process exit code of one run. -/
structure RunOutput where
  stdout : List OutLine
  exitCode : Nat
deriving Repr, DecidableEq

/-- `main` (lines 117-138) after argument parsing: run the filter; if any
candidate survived, render the enriched table, else print the no-match
message.  The script never calls `sys.exit`, so a run that does not raise
ends with exit code 0 — including the non-200 fetch path, which returns `[]`
and therefore falls into the no-match branch. -/
def main_run (p : FilterParams) (resp : HttpResponse)
    (lookup : Candidate → LookupResult) : RunOutput :=
  let r := get_filtered_instances p resp
  if r.2.isEmpty then
    { stdout := r.1 ++ [OutLine.noMatch], exitCode := 0 }
  else
    { stdout := r.1 ++
        [OutLine.table (display_instance_info p.max_usd (r.2.map (fun c => (c, lookup c))))],
      exitCode := 0 }

/-! ## Helper lemmas -/

/-- Unpacking `filterOne p sa it d = some c`: every filter stage passed, the
region/Linux lookup found an entry `e`, `c` is the record built from `d` and
`e`, and when an interruption ceiling was given the resolved range max is
within it. -/
theorem filterOne_some {p : FilterParams} {sa : SpotAdvisor} {it_type : String}
    {d : InstanceDetails} {c : Candidate}
    (h : filterOne p sa it_type d = some c) :
    instancePassesSub p.instance_types it_type = true
    ∧ (p.min_cores ≤ d.cores ∧ d.cores ≤ p.max_cores ∧
       p.min_ram ≤ d.ram_gb ∧ d.ram_gb ≤ p.max_ram)
    ∧ ∃ e, entryFor sa p.region it_type = some e
        ∧ c = { instance_type := it_type, cores := d.cores, ram := d.ram_gb,
                discount := e.s, frequency_of_interruption := resolveLabel e.r }
        ∧ ∀ mi, p.max_interruption = some mi → resolveMax e.r ≤ mi := by
  unfold filterOne at h
  split at h
  · exact absurd h (by simp)
  · split at h
    · exact absurd h (by simp)
    · rename_i hsub hbounds
      refine ⟨by simpa using hsub, by tauto, ?_⟩
      unfold entryFor
      split at h
      · exact absurd h (by simp)
      · rename_i region_data hreg
        split at h
        · exact absurd h (by simp)
        · rename_i e hentry
          refine ⟨e, hentry, ?_⟩
          split at h
          · rename_i hmi
            refine ⟨by simpa using h.symm, ?_⟩
            intro mi hmi2
            rw [hmi] at hmi2
            exact absurd hmi2 (by simp)
          · rename_i mi hmi
            split at h
            · exact absurd h (by simp)
            · rename_i hle
              refine ⟨by simpa using h.symm, ?_⟩
              intro mi2 hmi2
              rw [hmi] at hmi2
              cases hmi2
              omega

/-- Every range max is at least 5, and the fallback is 100, so the resolved
max is never below 5. -/
theorem resolveMax_ge_five (rv : Option Int) : 5 ≤ resolveMax rv := by
  unfold resolveMax
  cases hfind : List.find? (fun re => rv == some ((re.index : Int))) ranges with
  | none => simp
  | some re =>
    have hmem : re ∈ ranges := List.mem_of_find?_eq_some hfind
    have hge : 5 ≤ re.max := by fin_cases hmem <;> decide
    simpa using hge

/-- The availability branch actually consulted by the filter: each region's
OS map restricted to its `"Linux"` key. -/
def linuxOnly (sa : SpotAdvisor) : SpotAdvisor :=
  sa.map (fun rp => (rp.1, List.filter (fun op => op.1 == "Linux") rp.2))

theorem lookup_filter_key {β : Type} (a : String) (l : List (String × β)) :
    List.lookup a (List.filter (fun x => x.1 == a) l) = List.lookup a l := by
  induction l with
  | nil => rfl
  | cons hd tl ih =>
    obtain ⟨k, v⟩ := hd
    by_cases hk : k = a
    · subst hk
      simp [List.lookup]
    · have h1 : (k == a) = false := by simpa using hk
      have h2 : (a == k) = false := by simpa using fun h => hk h.symm
      simp [List.filter, List.lookup, h1, h2, ih]

theorem lookup_linuxOnly (sa : SpotAdvisor) (region : String) :
    List.lookup region (linuxOnly sa)
      = (List.lookup region sa).map
          (fun rd => List.filter (fun op => op.1 == "Linux") rd) := by
  induction sa with
  | nil => rfl
  | cons hd tl ih =>
    obtain ⟨k, rd⟩ := hd
    by_cases hk : region = k
    · subst hk
      simp [linuxOnly, List.lookup]
    · have h2 : (region == k) = false := by simpa using hk
      simpa [linuxOnly, List.lookup, h2] using ih

theorem filterOne_linuxOnly (p : FilterParams) (sa : SpotAdvisor)
    (it_type : String) (d : InstanceDetails) :
    filterOne p (linuxOnly sa) it_type d = filterOne p sa it_type d := by
  unfold filterOne
  rw [lookup_linuxOnly]
  cases List.lookup p.region sa with
  | none => rfl
  | some rd => simp [lookup_filter_key]

/-! ## Concrete fixtures -/

/-- A small availability dataset: three instance types, one region whose
Linux map covers all three (one with an out-of-table interruption index) and
whose Windows map differs, exercising the Linux-only lookup. -/
def exData : SpotData :=
  { instance_types :=
      [ ("m6i.large", { cores := 2, ram_gb := 8 }),
        ("m5.large", { cores := 2, ram_gb := 8 }),
        ("x9.weird", { cores := 4, ram_gb := 16 }) ],
    spot_advisor :=
      [ ("us-east-1",
          [ ("Linux",
              [ ("m6i.large", { s := some 60, r := some 1 }),
                ("m5.large", { s := some 50, r := some 1 }),
                ("x9.weird", { s := some 40, r := some 7 }) ]),
            ("Windows",
              [ ("m6i.large", { s := some 10, r := some 3 }) ]) ]) ] }

/-- Baseline constraints every `exData` entry satisfies. -/
def exParams : FilterParams :=
  { min_cores := 1, max_cores := 4, min_ram := 4, max_ram := 16,
    max_interruption := none, region := "us-east-1", max_usd := none,
    instance_types := none }

/-- The candidate the filter emits for `"m6i.large"` under `exParams`. -/
def candM6i : Candidate :=
  { instance_type := "m6i.large", cores := 2, ram := 8, discount := some 60,
    frequency_of_interruption := "5-10%" }

/-- The candidate the filter emits for `"m5.large"` under `exParams`. -/
def candM5 : Candidate :=
  { instance_type := "m5.large", cores := 2, ram := 8, discount := some 50,
    frequency_of_interruption := "5-10%" }

/-- The candidate the filter emits for `"x9.weird"` (interruption index 7,
outside the table) under `exParams`. -/
def candX9 : Candidate :=
  { instance_type := "x9.weird", cores := 4, ram := 16, discount := some 40,
    frequency_of_interruption := "Unknown" }

/-! ## Claims -/

/-- C1: every Candidate emitted by `get_filtered_instances` has cores within
`[min_cores, max_cores]` and RAM within `[min_ram, max_ram]`, both bounds
inclusive (line 59 of the source uses `<=` on both sides of both chains). -/
theorem spec_c1 (p : FilterParams) (data : SpotData) (c : Candidate)
    (hc : c ∈ filterData p data) :
    p.min_cores ≤ c.cores ∧ c.cores ≤ p.max_cores ∧
    p.min_ram ≤ c.ram ∧ c.ram ≤ p.max_ram := by
  unfold filterData at hc
  obtain ⟨x, hx, hone⟩ := List.mem_filterMap.mp hc
  obtain ⟨-, hbounds, e, -, hc2, -⟩ := filterOne_some hone
  subst hc2
  exact ⟨hbounds.1, hbounds.2.1, hbounds.2.2.1, hbounds.2.2.2⟩

/-- C1 witness: the bounds hold for a concrete emitted candidate, with the
membership hypothesis discharged by evaluation. -/
theorem spec_c1_witness :
    exParams.min_cores ≤ candM6i.cores ∧ candM6i.cores ≤ exParams.max_cores ∧
    exParams.min_ram ≤ candM6i.ram ∧ candM6i.ram ≤ exParams.max_ram :=
  spec_c1 exParams exData candM6i (by decide)

/-- C2: with a `max_interruption` ceiling, every emitted candidate's dataset
entry resolves (lines 71-74) to a range max within the ceiling; and a ceiling
of 0 empties the output for every dataset, since every resolved max is at
least 5. -/
theorem spec_c2 :
    (∀ (p : FilterParams) (data : SpotData) (mi : Int) (c : Candidate),
       p.max_interruption = some mi → c ∈ filterData p data →
       ∃ e, entryFor data.spot_advisor p.region c.instance_type = some e ∧
            resolveMax e.r ≤ mi)
    ∧ (∀ (p : FilterParams) (data : SpotData),
       p.max_interruption = some 0 → filterData p data = []) := by
  constructor
  · intro p data mi c hmi hc
    unfold filterData at hc
    obtain ⟨x, hx, hone⟩ := List.mem_filterMap.mp hc
    obtain ⟨-, -, e, hef, hc2, hmax⟩ := filterOne_some hone
    subst hc2
    exact ⟨e, hef, hmax mi hmi⟩
  · intro p data hmi
    unfold filterData
    rw [List.filterMap_eq_nil_iff]
    intro x hx
    cases hone : filterOne p data.spot_advisor x.1 x.2 with
    | none => rfl
    | some c =>
      obtain ⟨-, -, e, -, -, hmax⟩ := filterOne_some hone
      exact absurd (hmax 0 hmi)
        (by have h5 := resolveMax_ge_five e.r; omega)

/-- C2 witness: with ceiling 11, the concrete candidate `candM6i` is emitted
and its entry resolves to max 11 ≤ 11. -/
theorem spec_c2_witness :
    ∃ e, entryFor exData.spot_advisor "us-east-1" "m6i.large" = some e ∧
         resolveMax e.r ≤ 11 :=
  spec_c2.1 { exParams with max_interruption := some 11 } exData 11 candM6i
    rfl (by decide)

/-- C6: the filter reads only the `"Linux"` sub-map — restricting every
region's OS map to its Linux key never changes the output — and an emitted
candidate always has a region+Linux entry for its type (absence of either
excludes it, lines 62-66). -/
theorem spec_c6 :
    (∀ (p : FilterParams) (data : SpotData),
       filterData p { data with spot_advisor := linuxOnly data.spot_advisor }
         = filterData p data)
    ∧ (∀ (p : FilterParams) (data : SpotData) (c : Candidate),
       c ∈ filterData p data →
       ∃ e, entryFor data.spot_advisor p.region c.instance_type = some e) := by
  constructor
  · intro p data
    simp only [filterData]
    congr 1
    funext x
    exact filterOne_linuxOnly p data.spot_advisor x.1 x.2
  · intro p data c hc
    unfold filterData at hc
    obtain ⟨x, hx, hone⟩ := List.mem_filterMap.mp hc
    obtain ⟨-, -, e, hef, hc2, -⟩ := filterOne_some hone
    subst hc2
    exact ⟨e, hef⟩

/-- C6 witness: a concrete emitted candidate has a Linux-branch entry. -/
theorem spec_c6_witness :
    ∃ e, entryFor exData.spot_advisor "us-east-1" "m6i.large" = some e :=
  spec_c6.2 exParams exData candM6i (by decide)

/-- C7: with a non-empty substring list, every emitted candidate's type
contains some list entry (line 53), the check is exactly `any`-of-substring,
absence of the list disables the filter, and concretely `["6i"]` keeps
`m6i.large` while excluding `m5.large` (present in `exData` and passing every
other filter). -/
theorem spec_c7 :
    (∀ (p : FilterParams) (data : SpotData) (l : List String) (c : Candidate),
       p.instance_types = some l → l ≠ [] → c ∈ filterData p data →
       l.any (fun it => strContains c.instance_type it) = true)
    ∧ (∀ (l : List String) (it_type : String), l ≠ [] →
       instancePassesSub (some l) it_type
         = l.any (fun it => strContains it_type it))
    ∧ (∀ it_type : String, instancePassesSub none it_type = true)
    ∧ filterData { exParams with instance_types := some ["6i"] } exData
        = [candM6i] := by
  refine ⟨?_, ?_, ?_, ?_⟩
  · intro p data l c hp hl hc
    unfold filterData at hc
    obtain ⟨x, hx, hone⟩ := List.mem_filterMap.mp hc
    obtain ⟨hsub, -, e, -, hc2, -⟩ := filterOne_some hone
    subst hc2
    rw [hp] at hsub
    cases l with
    | nil => exact absurd rfl hl
    | cons a as => simpa [instancePassesSub] using hsub
  · intro l it_type hl
    cases l with
    | nil => exact absurd rfl hl
    | cons a as => rfl
  · intro it_type
    rfl
  · decide

/-- C7 witness: the substring guarantee instantiated at the concrete
dataset. -/
theorem spec_c7_witness :
    (["6i"].any (fun it => strContains "m6i.large" it)) = true :=
  spec_c7.1 { exParams with instance_types := some ["6i"] } exData ["6i"]
    candM6i rfl (by simp) (by decide)

/-- C8: an interruption index matching no `ranges` entry resolves to the
"Unknown" label (line 69's `next` default; `resolveLabel` is total, so no
error is possible); every emitted candidate's label is the resolution of its
entry's index; and concretely the `exData` entry with index 7 is emitted with
label "Unknown". -/
theorem spec_c8 :
    (∀ rv : Option Int, (∀ re ∈ ranges, some ((re.index : Int)) ≠ rv) →
       resolveLabel rv = "Unknown")
    ∧ (∀ (p : FilterParams) (data : SpotData) (c : Candidate),
       c ∈ filterData p data →
       ∃ e, entryFor data.spot_advisor p.region c.instance_type = some e ∧
            c.frequency_of_interruption = resolveLabel e.r)
    ∧ candX9 ∈ filterData exParams exData
    ∧ candX9.frequency_of_interruption = "Unknown" := by
  refine ⟨?_, ?_, by decide, rfl⟩
  · intro rv hrv
    unfold resolveLabel
    have hfind : List.find? (fun re => rv == some ((re.index : Int))) ranges
        = none := by
      rw [List.find?_eq_none]
      intro re hre
      simp only [beq_iff_eq]
      exact fun h => hrv re hre h.symm
    simp [hfind]
  · intro p data c hc
    unfold filterData at hc
    obtain ⟨x, hx, hone⟩ := List.mem_filterMap.mp hc
    obtain ⟨-, -, e, hef, hc2, -⟩ := filterOne_some hone
    subst hc2
    exact ⟨e, hef, rfl⟩

/-- C8 witness: index 7 resolves to "Unknown", hypotheses discharged by
evaluation over the concrete table. -/
theorem spec_c8_witness : resolveLabel (some 7) = "Unknown" :=
  spec_c8.1 (some 7) (by decide)

/-- C9: the static table has exactly 5 entries, indices contiguously 0..4,
and the range maxima (5, 11, 16, 22, 100) strictly increase with index. -/
theorem spec_c9 :
    ranges.length = 5
    ∧ ranges.map (fun re => re.index) = [0, 1, 2, 3, 4]
    ∧ List.Pairwise (fun a b => a < b) (ranges.map (fun re => re.max)) := by
  decide

/-- C3: with a price ceiling, a candidate whose fetched numeric price exceeds
it contributes no row at all (the `continue` on line 103); with no ceiling
every candidate keeps its row — the output has one row per input — and in
particular a candidate with the unavailable sentinel is retained. -/
theorem spec_c3 :
    (∀ (ceil q : ℚ) (c : Candidate) (xs ys : List (Candidate × LookupResult)),
       q > ceil →
       display_instance_info (some ceil) (xs ++ (c, LookupResult.price q) :: ys)
         = display_instance_info (some ceil) xs
           ++ display_instance_info (some ceil) ys)
    ∧ (∀ pairs : List (Candidate × LookupResult),
       (display_instance_info none pairs).length = pairs.length)
    ∧ (∀ c : Candidate,
       display_instance_info none [(c, LookupResult.na)]
         = [(c, PriceCell.unavailable)]) := by
  refine ⟨?_, ?_, fun c => rfl⟩
  · intro ceil q c xs ys hq
    simp [display_instance_info, List.filterMap_append, renderCell, hq]
  · intro pairs
    induction pairs with
    | nil => rfl
    | cons hd tl ih =>
      obtain ⟨c, r⟩ := hd
      simp only [display_instance_info] at ih ⊢
      cases r <;> simp [renderCell, ih] <;>
        exact fun a b _ => by cases b <;> rfl

/-- C3 witness: a concrete over-ceiling candidate vanishes from the batch. -/
theorem spec_c3_witness :
    display_instance_info (some 1)
        ([(candM5, LookupResult.na)]
          ++ (candM6i, LookupResult.price 2) :: [(candX9, LookupResult.price 1)])
      = display_instance_info (some 1) [(candM5, LookupResult.na)]
        ++ display_instance_info (some 1) [(candX9, LookupResult.price 1)] :=
  spec_c3.1 1 2 candM6i [(candM5, LookupResult.na)]
    [(candX9, LookupResult.price 1)] (by decide)

/-- C4: a lookup error for one candidate is caught by the `except` branch
(lines 104-106): that candidate's row shows the unavailable sentinel, and the
sibling candidates before and after it are processed exactly as they would be
on their own — no failure aborts the batch. -/
theorem spec_c4 (mu : Option ℚ) (xs ys : List (Candidate × LookupResult))
    (c : Candidate) :
    display_instance_info mu (xs ++ (c, LookupResult.error) :: ys)
      = display_instance_info mu xs
        ++ (c, PriceCell.unavailable) :: display_instance_info mu ys := by
  simp [display_instance_info, List.filterMap_append, renderCell]

/-- C10: a fetched price of exactly 0 renders as the unavailable sentinel
(`price or "N/A"` on line 110 treats the falsy float 0.0 as missing), while
any nonzero price within the ceiling — or with no ceiling — renders as its
numeric value. -/
theorem spec_c10 :
    (∀ (mu : Option ℚ) (c : Candidate),
       (∀ ceil, mu = some ceil → (0:ℚ) ≤ ceil) →
       display_instance_info mu [(c, LookupResult.price 0)]
         = [(c, PriceCell.unavailable)])
    ∧ (∀ (c : Candidate) (q : ℚ), q ≠ 0 →
       display_instance_info none [(c, LookupResult.price q)]
         = [(c, PriceCell.num q)])
    ∧ (∀ (c : Candidate) (q ceil : ℚ), q ≠ 0 → q ≤ ceil →
       display_instance_info (some ceil) [(c, LookupResult.price q)]
         = [(c, PriceCell.num q)]) := by
  refine ⟨?_, ?_, ?_⟩
  · intro mu c hmu
    cases mu with
    | none => simp [display_instance_info, renderCell]
    | some ceil =>
      have h0 : ¬ (0:ℚ) > ceil := not_lt.mpr (hmu ceil rfl)
      simp [display_instance_info, renderCell, h0]
  · intro c q hq
    simp [display_instance_info, renderCell, hq]
  · intro c q ceil hq hle
    have h : ¬ q > ceil := not_lt.mpr hle
    simp [display_instance_info, renderCell, h, hq]

/-- C10 witness: the three render cases at concrete prices. -/
theorem spec_c10_witness :
    display_instance_info (some 1) [(candM6i, LookupResult.price 0)]
      = [(candM6i, PriceCell.unavailable)]
    ∧ display_instance_info none [(candM5, LookupResult.price (1/2))]
      = [(candM5, PriceCell.num (1/2))]
    ∧ display_instance_info (some 1) [(candX9, LookupResult.price (1/2))]
      = [(candX9, PriceCell.num (1/2))] :=
  ⟨spec_c10.1 (some 1) candM6i
      (fun ceil h => by obtain rfl : ceil = 1 := (Option.some_inj.mp h).symm; norm_num),
   spec_c10.2.1 candM5 (1/2) (by norm_num),
   spec_c10.2.2 candX9 (1/2) 1 (by norm_num) (by norm_num)⟩

/-- C5 counterexample: at a concrete non-200 availability response the run
prints the diagnostic but terminates with exit code 0, not non-zero — the
script never calls `sys.exit`, the failing fetch returns `[]`, and `main`
then takes the no-match branch. -/
theorem spec_c5_counterexample :
    (main_run exParams { status := 500, body := exData }
        (fun _ => LookupResult.na)).exitCode = 0
    ∧ (main_run exParams { status := 500, body := exData }
        (fun _ => LookupResult.na)).stdout
      = [OutLine.fetchFail 500, OutLine.noMatch] := by
  exact ⟨rfl, rfl⟩

/-- C5 amended: on a non-success status the run prints the diagnostic and
then the no-match message and exits zero (not non-zero); a successful run
with zero matches prints the no-match message and exits zero; indeed every
run of `main` that does not raise exits zero. -/
theorem spec_c5_amended (p : FilterParams) (resp : HttpResponse)
    (lookup : Candidate → LookupResult) :
    (resp.status ≠ 200 →
       main_run p resp lookup
         = { stdout := [OutLine.fetchFail resp.status, OutLine.noMatch],
             exitCode := 0 })
    ∧ (resp.status = 200 → filterData p resp.body = [] →
       main_run p resp lookup = { stdout := [OutLine.noMatch], exitCode := 0 })
    ∧ (main_run p resp lookup).exitCode = 0 := by
  refine ⟨?_, ?_, ?_⟩
  · intro h
    simp [main_run, get_filtered_instances, h]
  · intro h hf
    simp [main_run, get_filtered_instances, h, hf]
  · simp only [main_run]
    split <;> rfl

/-- C5 witness: the amended behaviour at a concrete failing response and at a
concrete empty-match run. -/
theorem spec_c5_witness :
    main_run exParams { status := 404, body := exData }
        (fun _ => LookupResult.na)
      = { stdout := [OutLine.fetchFail 404, OutLine.noMatch], exitCode := 0 }
    ∧ main_run { exParams with region := "eu-west-1" }
        { status := 200, body := exData } (fun _ => LookupResult.na)
      = { stdout := [OutLine.noMatch], exitCode := 0 } :=
  ⟨(spec_c5_amended exParams { status := 404, body := exData }
      (fun _ => LookupResult.na)).1 (by decide),
   (spec_c5_amended { exParams with region := "eu-west-1" }
      { status := 200, body := exData } (fun _ => LookupResult.na)).2.1
      rfl (by decide)⟩
